import Mathlib

/-!
# In-memory social-media post store

A shallow embedding of the request handlers of `handler/handler.go`
(`AddPostHandler`, `GetPostHandler`, `AddCommentHandler`, `LikePostHandler`,
`DislikePostHandler`, `SharePostHandler`), of the records of
`models/models.go` and of the route table of `main.go`, followed by theorems
about them.

Modelling conventions.

* The store `Posts map[string]*models.Post` is a partial map from identifiers
  to post records.  Every pointer held by the map is allocated by one call of
  `AddPostHandler` and stored under one key only, so no two keys alias and the
  pointer indirection can be flattened.
* Handlers run one at a time (the mutex is not modelled); a handler is a
  function from the store and the request to the new store and the response.
* What a handler draws from its environment is an explicit argument: the
  outcome of `json.Decode` on the request body (`none` when decoding fails,
  `some v` for the decoded record), the string produced by
  `uuid.New().String()` and the instant produced by `time.Now()`.
* Go `int` is the 64-bit two's-complement integer; `++` wraps around.
-/

namespace Socialmedia

/-! ## Go `int` -/

/-- Smallest value of a 64-bit Go `int`. -/
def minInt : Int := -9223372036854775808

/-- Largest value of a 64-bit Go `int`. -/
def maxInt : Int := 9223372036854775807

/-- Two's-complement reduction of an integer to the range of Go `int`. -/
def wrapInt (x : Int) : Int := (x + 9223372036854775808) % 18446744073709551616 - 9223372036854775808

/-- A Go `int`: an integer between `minInt` and `maxInt`. -/
structure GoInt where
  val : Int
  lo : minInt ≤ val
  hi : val ≤ maxInt

instance : DecidableEq GoInt := fun a b =>
  if h : a.val = b.val then
    isTrue (by cases a; cases b; cases h; rfl)
  else
    isFalse (fun e => h (congrArg GoInt.val e))

/-- The Go `int` a JSON number or literal denotes, reduced to 64 bits. -/
def GoInt.ofInt (x : Int) : GoInt :=
  ⟨wrapInt x, by unfold wrapInt minInt; omega, by unfold wrapInt maxInt; omega⟩

/-- The statement `x++` on a Go `int`. -/
def GoInt.incr (x : GoInt) : GoInt := GoInt.ofInt (x.val + 1)

/-! ## `models/models.go` -/

/-- A `time.Time`, as a count of ticks. -/
abbrev Time := Nat

/-- The record `models.Comment`. -/
structure Comment where
  ID : String
  Content : String
  CreatedAt : Time
deriving DecidableEq

/-- The record `models.Post`. -/
structure Post where
  ID : String
  Content : String
  Comments : List Comment
  Likes : GoInt
  Dislikes : GoInt
  CreatedAt : Time
deriving DecidableEq

/-- The call `validate.Struct(post)` for a `models.Post`: the only tagged field is
`Content`, with `required` (not the empty string) and `max=500` (at most 500
runes).  `Comments` carries no tag, so its elements are not visited. -/
def validatePost (post : Post) : Bool :=
  post.Content != "" && decide (post.Content.length ≤ 500)

/-- The call `validate.Struct(comment)` for a `models.Comment`: `Content` is
`required` and `max=300`. -/
def validateComment (comment : Comment) : Bool :=
  comment.Content != "" && decide (comment.Content.length ≤ 300)

/-! ## `utils/utils.go` and the responses -/

/-- The constant `http.StatusBadRequest`. -/
def StatusBadRequest : Nat := 400

/-- The constant `http.StatusNotFound`. -/
def StatusNotFound : Nat := 404

/-- What a handler writes to its `http.ResponseWriter`: the JSON encoding of a
post, of a comment or of the map with the single key `shareable_link`, or an
error with a status code and a message. -/
inductive Response where
  | post (p : Post)
  | comment (c : Comment)
  | link (shareableLink : String)
  | error (code : Nat) (message : String)
deriving DecidableEq

/-- The function `utils.RespondWithError`. -/
def RespondWithError (code : Nat) (message : String) : Response :=
  Response.error code message

/-- The status line of a response: `http.Error` writes the given code; a handler
that only writes a body answers `200 OK`. -/
def Response.status : Response → Nat
  | Response.error code _ => code
  | _ => 200

/-! ## `handler/handler.go` -/

/-- The in-memory store `SocialMedia`. -/
structure SocialMedia where
  Posts : String → Option Post

/-- The constructor `NewSocialMedia`: an empty map. -/
def NewSocialMedia : SocialMedia := ⟨fun _ => none⟩

/-- The assignment `sm.Posts[id] = &post`. -/
def SocialMedia.store (sm : SocialMedia) (id : String) (post : Post) : SocialMedia :=
  ⟨fun k => if k = id then some post else sm.Posts k⟩

/-- The handler `AddPostHandler`. -/
def AddPostHandler (sm : SocialMedia) (body : Option Post) (newID : String) (now : Time) :
    SocialMedia × Response :=
  match body with
  | none => (sm, RespondWithError StatusBadRequest "Invalid request payload")
  | some post =>
    if validatePost post then
      let post := { post with ID := newID, CreatedAt := now }
      (sm.store post.ID post, Response.post post)
    else
      (sm, RespondWithError StatusBadRequest "Validation failed")

/-- The handler `GetPostHandler`. -/
def GetPostHandler (sm : SocialMedia) (postID : String) : SocialMedia × Response :=
  match sm.Posts postID with
  | none => (sm, RespondWithError StatusNotFound "Post not found")
  | some post => (sm, Response.post post)

/-- The handler `AddCommentHandler`. -/
def AddCommentHandler (sm : SocialMedia) (postID : String) (body : Option Comment)
    (newID : String) (now : Time) : SocialMedia × Response :=
  match sm.Posts postID with
  | none => (sm, RespondWithError StatusNotFound "Post not found")
  | some post =>
    match body with
    | none => (sm, RespondWithError StatusBadRequest "Invalid request payload")
    | some comment =>
      if validateComment comment then
        let comment := { comment with ID := newID, CreatedAt := now }
        (sm.store postID { post with Comments := post.Comments ++ [comment] },
          Response.comment comment)
      else
        (sm, RespondWithError StatusBadRequest "Validation failed")

/-- The handler `LikePostHandler`. -/
def LikePostHandler (sm : SocialMedia) (postID : String) : SocialMedia × Response :=
  match sm.Posts postID with
  | some post =>
    let post := { post with Likes := post.Likes.incr }
    (sm.store postID post, Response.post post)
  | none => (sm, RespondWithError StatusNotFound "Post not found")

/-- The handler `DislikePostHandler`. -/
def DislikePostHandler (sm : SocialMedia) (postID : String) : SocialMedia × Response :=
  match sm.Posts postID with
  | some post =>
    let post := { post with Dislikes := post.Dislikes.incr }
    (sm.store postID post, Response.post post)
  | none => (sm, RespondWithError StatusNotFound "Post not found")

/-- The handler `SharePostHandler`. -/
def SharePostHandler (sm : SocialMedia) (postID : String) : SocialMedia × Response :=
  match sm.Posts postID with
  | none => (sm, RespondWithError StatusNotFound "Post not found")
  | some _ =>
    let baseURL := "http://localhost:8000/post/"
    let shareableLink := baseURL ++ postID
    (sm, Response.link shareableLink)

/-! ## `main.go`: the route table -/

/-- A request matched by one of the six routes, with what its handler draws
from the environment. -/
inductive Request where
  | addPost (body : Option Post) (newID : String) (now : Time)
  | getPost (id : String)
  | addComment (id : String) (body : Option Comment) (newID : String) (now : Time)
  | like (id : String)
  | dislike (id : String)
  | share (id : String)
deriving DecidableEq

/-- The dispatch of the router: each route calls its handler. -/
def serve (sm : SocialMedia) : Request → SocialMedia × Response
  | Request.addPost body newID now => AddPostHandler sm body newID now
  | Request.getPost id => GetPostHandler sm id
  | Request.addComment id body newID now => AddCommentHandler sm id body newID now
  | Request.like id => LikePostHandler sm id
  | Request.dislike id => DislikePostHandler sm id
  | Request.share id => SharePostHandler sm id

/-- Serving a sequence of requests one after the other, from the store `sm`:
the final store and the log of requests with their responses. -/
def run (sm : SocialMedia) : List Request → SocialMedia × List (Request × Response)
  | [] => (sm, [])
  | r :: rs =>
    let out := serve sm r
    let rest := run out.1 rs
    (rest.1, (r, out.2) :: rest.2)

/-- The identifiers returned by the successful create calls of a log. -/
def createdIDs : List (Request × Response) → List String
  | [] => []
  | (Request.addPost _ _ _, Response.post p) :: t => p.ID :: createdIDs t
  | _ :: t => createdIDs t

/-- The counters of a post are non-negative and stay within Go `int` after `n`
further increments. -/
def Post.CountersWithin (n : Nat) (p : Post) : Prop :=
  0 ≤ p.Likes.val ∧ p.Likes.val + n ≤ maxInt ∧ 0 ≤ p.Dislikes.val ∧ p.Dislikes.val + n ≤ maxInt

/-! ## Sample inputs -/

/-- The decoded body of `{"content":"hi"}`: every other field keeps its zero value. -/
def bodyHi : Post := ⟨"", "hi", [], GoInt.ofInt 0, GoInt.ofInt 0, 0⟩

/-- The decoded body of `{"content":"hi","likes":7}`. -/
def bodyLikes7 : Post := ⟨"", "hi", [], GoInt.ofInt 7, GoInt.ofInt 0, 0⟩

/-- The decoded body of `{"content":"hi","likes":-1}`. -/
def bodyLikesNeg : Post := ⟨"", "hi", [], GoInt.ofInt (-1), GoInt.ofInt 0, 0⟩

/-- The decoded body of `{"content":"hi","likes":9223372036854775807}`. -/
def bodyLikesMax : Post := ⟨"", "hi", [], GoInt.ofInt maxInt, GoInt.ofInt 0, 0⟩

/-- The decoded body of `{"content":""}`. -/
def bodyEmpty : Post := ⟨"", "", [], GoInt.ofInt 0, GoInt.ofInt 0, 0⟩

/-- A decoded body whose content has 501 characters. -/
def bodyLong : Post := ⟨"", String.mk (List.replicate 501 'a'), [], GoInt.ofInt 0, GoInt.ofInt 0, 0⟩

/-- The decoded body of `{"content":"nice"}` sent to the comment route. -/
def commentNice : Comment := ⟨"", "nice", 0⟩

/-- The decoded body of `{"content":""}` sent to the comment route. -/
def commentEmpty : Comment := ⟨"", "", 0⟩

/-- The post stored by a create request with body `bodyHi`, identifier `p123`
and instant 1. -/
def postHi : Post := ⟨"p123", "hi", [], GoInt.ofInt 0, GoInt.ofInt 0, 1⟩

/-- The store after one create request with body `bodyHi`. -/
def smHi : SocialMedia := (AddPostHandler NewSocialMedia (some bodyHi) "p123" 1).1

/-- The store after one create request with body `bodyLikesMax`. -/
def smMax : SocialMedia := (AddPostHandler NewSocialMedia (some bodyLikesMax) "p123" 1).1

/-! ## Auxiliary facts -/

theorem GoInt.incr_val_of_lt (x : GoInt) (h : x.val < maxInt) : x.incr.val = x.val + 1 := by
  have hlo := x.lo
  simp only [GoInt.incr, GoInt.ofInt, wrapInt]
  unfold minInt at hlo
  unfold maxInt at h
  omega

theorem GoInt.incr_val_of_eq (x : GoInt) (h : x.val = maxInt) : x.incr.val = minInt := by
  simp only [GoInt.incr, GoInt.ofInt, wrapInt]
  unfold maxInt at h
  unfold minInt
  omega

theorem validatePost_iff (post : Post) :
    validatePost post = true ↔ post.Content ≠ "" ∧ post.Content.length ≤ 500 := by
  simp [validatePost]

theorem validateComment_iff (c : Comment) :
    validateComment c = true ↔ c.Content ≠ "" ∧ c.Content.length ≤ 300 := by
  simp [validateComment]

theorem store_same (sm : SocialMedia) (id : String) (p : Post) :
    (sm.store id p).Posts id = some p := by
  simp [SocialMedia.store]

theorem store_other (sm : SocialMedia) (id k : String) (p : Post) (h : k ≠ id) :
    (sm.store id p).Posts k = sm.Posts k := by
  simp [SocialMedia.store, h]

/-! ## Creating a post -/

/-- C1, as stated, fails: the create body `{"content":"hi","likes":7}` has valid
content, and the post `AddPostHandler` returns and stores has like count 7, not 0. -/
theorem AddPostHandler_body_likes_kept :
    bodyLikes7.Content ≠ "" ∧ bodyLikes7.Content.length ≤ 500 ∧
    (AddPostHandler NewSocialMedia (some bodyLikes7) "p123" 1).2
      = Response.post ⟨"p123", "hi", [], GoInt.ofInt 7, GoInt.ofInt 0, 1⟩ ∧
    (AddPostHandler NewSocialMedia (some bodyLikes7) "p123" 1).1.Posts "p123"
      = some ⟨"p123", "hi", [], GoInt.ofInt 7, GoInt.ofInt 0, 1⟩ ∧
    (GoInt.ofInt 7).val = 7 ∧
    ¬ ∃ p, (AddPostHandler NewSocialMedia (some bodyLikes7) "p123" 1).2 = Response.post p ∧
      p.Content = "hi" ∧ p.Likes.val = 0 ∧ p.Dislikes.val = 0 ∧ p.Comments = [] := by
  refine ⟨by decide, by decide, by decide, by decide, by decide, ?_⟩
  rintro ⟨p, hp, -, hl, -, -⟩
  have h : (AddPostHandler NewSocialMedia (some bodyLikes7) "p123" 1).2
      = Response.post ⟨"p123", "hi", [], GoInt.ofInt 7, GoInt.ofInt 0, 1⟩ := by decide
  rw [h] at hp
  injection hp with hp
  subst hp
  revert hl
  decide

/-- C1, amended: for every store and every create request whose decoded body has
content that is non-empty and at most 500 characters, `AddPostHandler` succeeds;
the post it returns is the post it stores under the generated identifier; that
post has the generated identifier, the given instant, the given content and the
like count, dislike count and comment sequence of the decoded body, hence 0, 0
and the empty sequence when the body carries none of them; no other entry of the
store changes. -/
theorem AddPostHandler_valid (sm : SocialMedia) (body : Post) (newID : String) (now : Time)
    (hne : body.Content ≠ "") (hlen : body.Content.length ≤ 500) :
    ∃ p, (AddPostHandler sm (some body) newID now).2 = Response.post p ∧
      (AddPostHandler sm (some body) newID now).1.Posts newID = some p ∧
      (∀ k, k ≠ newID → (AddPostHandler sm (some body) newID now).1.Posts k = sm.Posts k) ∧
      p.ID = newID ∧ p.CreatedAt = now ∧ p.Content = body.Content ∧
      p.Likes = body.Likes ∧ p.Dislikes = body.Dislikes ∧ p.Comments = body.Comments ∧
      (body.Likes.val = 0 → body.Dislikes.val = 0 → body.Comments = [] →
        p.Likes.val = 0 ∧ p.Dislikes.val = 0 ∧ p.Comments = []) := by
  have hv : validatePost body = true := (validatePost_iff body).2 ⟨hne, hlen⟩
  refine ⟨{ body with ID := newID, CreatedAt := now }, ?_, ?_, ?_, rfl, rfl, rfl, rfl, rfl, rfl, ?_⟩
  · simp [AddPostHandler, hv]
  · simp [AddPostHandler, hv, store_same]
  · intro k hk
    simp [AddPostHandler, hv, store_other _ _ _ _ hk]
  · intro h1 h2 h3
    exact ⟨h1, h2, h3⟩

/-- Witness of `AddPostHandler_valid`: the body `{"content":"hi"}` on the empty store. -/
theorem AddPostHandler_valid_witness :
    ∃ p, (AddPostHandler NewSocialMedia (some bodyHi) "p123" 1).2 = Response.post p ∧
      (AddPostHandler NewSocialMedia (some bodyHi) "p123" 1).1.Posts "p123" = some p ∧
      (∀ k, k ≠ "p123" →
        (AddPostHandler NewSocialMedia (some bodyHi) "p123" 1).1.Posts k = NewSocialMedia.Posts k) ∧
      p.ID = "p123" ∧ p.CreatedAt = 1 ∧ p.Content = bodyHi.Content ∧
      p.Likes = bodyHi.Likes ∧ p.Dislikes = bodyHi.Dislikes ∧ p.Comments = bodyHi.Comments ∧
      (bodyHi.Likes.val = 0 → bodyHi.Dislikes.val = 0 → bodyHi.Comments = [] →
        p.Likes.val = 0 ∧ p.Dislikes.val = 0 ∧ p.Comments = []) :=
  AddPostHandler_valid NewSocialMedia bodyHi "p123" 1 (by decide) (by decide)

/-- C2: for every store and every create request whose decoded content is empty or
longer than 500 characters, `AddPostHandler` answers with the bad-request error
`Validation failed` and returns the store it was given. -/
theorem AddPostHandler_invalid (sm : SocialMedia) (body : Post) (newID : String) (now : Time)
    (h : body.Content = "" ∨ 500 < body.Content.length) :
    AddPostHandler sm (some body) newID now = (sm, Response.error 400 "Validation failed") ∧
    (AddPostHandler sm (some body) newID now).2.status = StatusBadRequest ∧
    (AddPostHandler sm (some body) newID now).1 = sm := by
  have hv : validatePost body = false := by
    cases hb : validatePost body with
    | false => rfl
    | true =>
      have := (validatePost_iff body).1 hb
      rcases h with h | h
      · exact absurd h this.1
      · omega
  have e : AddPostHandler sm (some body) newID now
      = (sm, Response.error 400 "Validation failed") := by
    simp [AddPostHandler, hv, RespondWithError, StatusBadRequest]
  rw [e]
  exact ⟨rfl, rfl, rfl⟩

set_option maxRecDepth 8000 in
/-- Witness of `AddPostHandler_invalid`: a 501-character content on a store that
holds one post. -/
theorem AddPostHandler_invalid_witness :
    500 < bodyLong.Content.length ∧
    AddPostHandler smHi (some bodyLong) "p124" 2 = (smHi, Response.error 400 "Validation failed") ∧
    (AddPostHandler smHi (some bodyLong) "p124" 2).2.status = StatusBadRequest ∧
    (AddPostHandler smHi (some bodyLong) "p124" 2).1 = smHi :=
  ⟨by decide, AddPostHandler_invalid smHi bodyLong "p124" 2 (Or.inr (by decide))⟩

/-! ## Commenting on a post -/

/-- C3: for every store, every identifier of a stored post and every decoded
comment body whose content is non-empty and at most 300 characters,
`AddCommentHandler` succeeds and returns the new comment, made of the generated
identifier, the given content and the given instant; afterwards the comment
sequence of the post is the previous sequence followed by that comment, so its
length has grown by exactly 1 and every earlier comment keeps its position and
value; the other fields of the post and the other posts are untouched. -/
theorem AddCommentHandler_valid (sm : SocialMedia) (postID : String) (post : Post)
    (body : Comment) (newID : String) (now : Time)
    (hpost : sm.Posts postID = some post)
    (hne : body.Content ≠ "") (hlen : body.Content.length ≤ 300) :
    (AddCommentHandler sm postID (some body) newID now).2
      = Response.comment ⟨newID, body.Content, now⟩ ∧
    ∃ post', (AddCommentHandler sm postID (some body) newID now).1.Posts postID = some post' ∧
      post'.Comments = post.Comments ++ [⟨newID, body.Content, now⟩] ∧
      post'.Comments.length = post.Comments.length + 1 ∧
      (∀ i, i < post.Comments.length → post'.Comments[i]? = post.Comments[i]?) ∧
      post'.Comments[post.Comments.length]? = some ⟨newID, body.Content, now⟩ ∧
      post'.ID = post.ID ∧ post'.Content = post.Content ∧ post'.Likes = post.Likes ∧
      post'.Dislikes = post.Dislikes ∧ post'.CreatedAt = post.CreatedAt ∧
      (∀ k, k ≠ postID →
        (AddCommentHandler sm postID (some body) newID now).1.Posts k = sm.Posts k) := by
  have hv : validateComment body = true := (validateComment_iff body).2 ⟨hne, hlen⟩
  refine ⟨?_, { post with Comments := post.Comments ++ [⟨newID, body.Content, now⟩] },
    ?_, rfl, ?_, ?_, ?_, rfl, rfl, rfl, rfl, rfl, ?_⟩
  · simp [AddCommentHandler, hpost, hv]
  · simp [AddCommentHandler, hpost, hv, store_same]
  · simp
  · intro i hi
    simp [List.getElem?_append_left hi]
  · simp
  · intro k hk
    simp [AddCommentHandler, hpost, hv, store_other _ _ _ _ hk]

/-- Witness of `AddCommentHandler_valid`: the comment `nice` on the post `p123`. -/
theorem AddCommentHandler_valid_witness :
    smHi.Posts "p123" = some postHi ∧
    (AddCommentHandler smHi "p123" (some commentNice) "c1" 2).2
      = Response.comment ⟨"c1", commentNice.Content, 2⟩ ∧
    ∃ post', (AddCommentHandler smHi "p123" (some commentNice) "c1" 2).1.Posts "p123" = some post' ∧
      post'.Comments = postHi.Comments ++ [⟨"c1", commentNice.Content, 2⟩] ∧
      post'.Comments.length = postHi.Comments.length + 1 ∧
      (∀ i, i < postHi.Comments.length → post'.Comments[i]? = postHi.Comments[i]?) ∧
      post'.Comments[postHi.Comments.length]? = some ⟨"c1", commentNice.Content, 2⟩ ∧
      post'.ID = postHi.ID ∧ post'.Content = postHi.Content ∧ post'.Likes = postHi.Likes ∧
      post'.Dislikes = postHi.Dislikes ∧ post'.CreatedAt = postHi.CreatedAt ∧
      (∀ k, k ≠ "p123" →
        (AddCommentHandler smHi "p123" (some commentNice) "c1" 2).1.Posts k = smHi.Posts k) :=
  ⟨by decide, AddCommentHandler_valid smHi "p123" postHi commentNice "c1" 2
    (by decide) (by decide) (by decide)⟩

/-- C4: `AddCommentHandler` answers not-found exactly when the post identifier is
absent from the store, whatever the body is; when the post exists and the body
does not decode, or decodes to a content that is empty or longer than 300
characters, it answers bad-request; and whenever it answers with an error the
store it returns is the store it was given. -/
theorem AddCommentHandler_failures (sm : SocialMedia) (postID : String) (body : Option Comment)
    (newID : String) (now : Time) :
    ((AddCommentHandler sm postID body newID now).2.status = StatusNotFound ↔
      sm.Posts postID = none) ∧
    (sm.Posts postID = none →
      AddCommentHandler sm postID body newID now = (sm, Response.error 404 "Post not found")) ∧
    (sm.Posts postID ≠ none → body = none →
      AddCommentHandler sm postID body newID now
        = (sm, Response.error 400 "Invalid request payload")) ∧
    (∀ c, sm.Posts postID ≠ none → body = some c →
      (c.Content = "" ∨ 300 < c.Content.length) →
      AddCommentHandler sm postID body newID now = (sm, Response.error 400 "Validation failed")) ∧
    (∀ code message, (AddCommentHandler sm postID body newID now).2 = Response.error code message →
      (AddCommentHandler sm postID body newID now).1 = sm) := by
  cases hp : sm.Posts postID with
  | none =>
    simp [AddCommentHandler, hp, RespondWithError, StatusNotFound, Response.status]
  | some post =>
    cases body with
    | none =>
      simp [AddCommentHandler, hp, RespondWithError, StatusNotFound, StatusBadRequest,
        Response.status]
    | some c =>
      cases hv : validateComment c with
      | true =>
        have hc := (validateComment_iff c).1 hv
        refine ⟨?_, ?_, ?_, ?_, ?_⟩
        · simp [AddCommentHandler, hp, hv, Response.status, StatusNotFound]
        · simp
        · simp
        · intro c' _ hc' hbad
          cases hc'
          rcases hbad with hbad | hbad
          · exact absurd hbad hc.1
          · omega
        · intro code message h
          simp [AddCommentHandler, hp, hv] at h
      | false =>
        simp [AddCommentHandler, hp, hv, RespondWithError, StatusNotFound, StatusBadRequest,
          Response.status]

/-- Witness of `AddCommentHandler_failures`: an absent post with a valid body, and
a stored post with an empty comment. -/
theorem AddCommentHandler_failures_witness :
    AddCommentHandler smHi "p999" (some commentNice) "c1" 2
      = (smHi, Response.error 404 "Post not found") ∧
    AddCommentHandler smHi "p123" (some commentEmpty) "c1" 2
      = (smHi, Response.error 400 "Validation failed") :=
  ⟨(AddCommentHandler_failures smHi "p999" (some commentNice) "c1" 2).2.1 (by decide),
   (AddCommentHandler_failures smHi "p123" (some commentEmpty) "c1" 2).2.2.2.1 commentEmpty
     (by decide) rfl (Or.inl (by decide))⟩

/-! ## Liking and disliking a post -/

/-- C5, as stated, fails: after the create request
`{"content":"hi","likes":9223372036854775807}` the stored post has like count
2^63 - 1, and `LikePostHandler` on it yields like count -2^63: the count has not
increased by 1. -/
theorem LikePostHandler_wraps_at_maxInt :
    smMax = (AddPostHandler NewSocialMedia (some bodyLikesMax) "p123" 1).1 ∧
    smMax.Posts "p123" = some ⟨"p123", "hi", [], GoInt.ofInt 9223372036854775807, GoInt.ofInt 0, 1⟩ ∧
    (GoInt.ofInt 9223372036854775807).val = 9223372036854775807 ∧
    (LikePostHandler smMax "p123").2
      = Response.post ⟨"p123", "hi", [], GoInt.ofInt (-9223372036854775808), GoInt.ofInt 0, 1⟩ ∧
    (LikePostHandler smMax "p123").1.Posts "p123"
      = some ⟨"p123", "hi", [], GoInt.ofInt (-9223372036854775808), GoInt.ofInt 0, 1⟩ ∧
    (GoInt.ofInt (-9223372036854775808)).val = -9223372036854775808 ∧
    ¬ ∃ p, (LikePostHandler smMax "p123").1.Posts "p123" = some p ∧
      p.Likes.val = 9223372036854775807 + 1 := by
  refine ⟨rfl, by decide, by decide, by decide, by decide, by decide, ?_⟩
  rintro ⟨p, hp, hl⟩
  have h : (LikePostHandler smMax "p123").1.Posts "p123"
      = some ⟨"p123", "hi", [], GoInt.ofInt (-9223372036854775808), GoInt.ofInt 0, 1⟩ := by
    decide
  rw [h] at hp
  injection hp with hp
  subst hp
  revert hl
  decide

/-- C5, amended: for every store and every identifier of a stored post,
`LikePostHandler` returns the post it stores back, whose dislike count and other
fields are unchanged and whose like count is the previous one plus exactly 1 when
that was below 2^63 - 1 (at 2^63 - 1 the Go `int` wraps to -2^63);
`DislikePostHandler` does the same with the two counters exchanged; neither
touches another post; and each answers not-found and returns the store it was
given when the identifier is absent. -/
theorem Like_Dislike_spec (sm : SocialMedia) (postID : String) :
    (∀ post, sm.Posts postID = some post →
      ∃ post', (LikePostHandler sm postID).2 = Response.post post' ∧
        (LikePostHandler sm postID).1.Posts postID = some post' ∧
        (post.Likes.val < maxInt → post'.Likes.val = post.Likes.val + 1) ∧
        (post.Likes.val = maxInt → post'.Likes.val = minInt) ∧
        post'.Dislikes = post.Dislikes ∧ post'.ID = post.ID ∧ post'.Content = post.Content ∧
        post'.Comments = post.Comments ∧ post'.CreatedAt = post.CreatedAt ∧
        (∀ k, k ≠ postID → (LikePostHandler sm postID).1.Posts k = sm.Posts k)) ∧
    (∀ post, sm.Posts postID = some post →
      ∃ post', (DislikePostHandler sm postID).2 = Response.post post' ∧
        (DislikePostHandler sm postID).1.Posts postID = some post' ∧
        (post.Dislikes.val < maxInt → post'.Dislikes.val = post.Dislikes.val + 1) ∧
        (post.Dislikes.val = maxInt → post'.Dislikes.val = minInt) ∧
        post'.Likes = post.Likes ∧ post'.ID = post.ID ∧ post'.Content = post.Content ∧
        post'.Comments = post.Comments ∧ post'.CreatedAt = post.CreatedAt ∧
        (∀ k, k ≠ postID → (DislikePostHandler sm postID).1.Posts k = sm.Posts k)) ∧
    (sm.Posts postID = none →
      LikePostHandler sm postID = (sm, Response.error 404 "Post not found") ∧
      DislikePostHandler sm postID = (sm, Response.error 404 "Post not found") ∧
      (LikePostHandler sm postID).2.status = StatusNotFound ∧
      (DislikePostHandler sm postID).2.status = StatusNotFound) := by
  refine ⟨?_, ?_, ?_⟩
  · intro post hpost
    refine ⟨{ post with Likes := post.Likes.incr }, ?_, ?_, ?_, ?_, rfl, rfl, rfl, rfl, rfl, ?_⟩
    · simp [LikePostHandler, hpost]
    · simp [LikePostHandler, hpost, store_same]
    · exact GoInt.incr_val_of_lt post.Likes
    · exact GoInt.incr_val_of_eq post.Likes
    · intro k hk
      simp [LikePostHandler, hpost, store_other _ _ _ _ hk]
  · intro post hpost
    refine ⟨{ post with Dislikes := post.Dislikes.incr }, ?_, ?_, ?_, ?_, rfl, rfl, rfl, rfl, rfl, ?_⟩
    · simp [DislikePostHandler, hpost]
    · simp [DislikePostHandler, hpost, store_same]
    · exact GoInt.incr_val_of_lt post.Dislikes
    · exact GoInt.incr_val_of_eq post.Dislikes
    · intro k hk
      simp [DislikePostHandler, hpost, store_other _ _ _ _ hk]
  · intro hnone
    simp [LikePostHandler, DislikePostHandler, hnone, RespondWithError, StatusNotFound,
      Response.status]

/-- Witness of `Like_Dislike_spec`: a like and a dislike of the post `p123`, whose
counters are 0, and a like of the absent identifier `p999`. -/
theorem Like_Dislike_spec_witness :
    (∃ post', (LikePostHandler smHi "p123").1.Posts "p123" = some post' ∧
      post'.Likes.val = postHi.Likes.val + 1 ∧ post'.Dislikes = postHi.Dislikes) ∧
    (∃ post', (DislikePostHandler smHi "p123").1.Posts "p123" = some post' ∧
      post'.Dislikes.val = postHi.Dislikes.val + 1 ∧ post'.Likes = postHi.Likes) ∧
    LikePostHandler smHi "p999" = (smHi, Response.error 404 "Post not found") := by
  have h := Like_Dislike_spec smHi "p123"
  have h9 := Like_Dislike_spec smHi "p999"
  obtain ⟨p1, -, hs1, hl1, -, hd1, -⟩ := h.1 postHi (by decide)
  obtain ⟨p2, -, hs2, hl2, -, hd2, -⟩ := h.2.1 postHi (by decide)
  exact ⟨⟨p1, hs1, hl1 (by decide), hd1⟩, ⟨p2, hs2, hl2 (by decide), hd2⟩,
    (h9.2.2 (by decide)).1⟩

/-! ## Sharing a post -/

/-- C6: for every store and every identifier, `SharePostHandler` returns the
string `http://localhost:8000/post/` followed by the identifier when a post with
that identifier is stored (for `p123`: `http://localhost:8000/post/p123`) and
answers not-found when none is; in both cases it returns the store it was
given; and on two stores that agree on whether the identifier is present it gives
the same response. -/
theorem SharePostHandler_spec (sm : SocialMedia) (postID : String) :
    (sm.Posts postID ≠ none →
      SharePostHandler sm postID
        = (sm, Response.link ("http://localhost:8000/post/" ++ postID))) ∧
    (sm.Posts postID = none →
      SharePostHandler sm postID = (sm, Response.error 404 "Post not found") ∧
      (SharePostHandler sm postID).2.status = StatusNotFound) ∧
    (SharePostHandler sm postID).1 = sm ∧
    (sm.Posts "p123" ≠ none →
      (SharePostHandler sm "p123").2 = Response.link "http://localhost:8000/post/p123") ∧
    (∀ sm2 : SocialMedia, ((sm.Posts postID).isSome = (sm2.Posts postID).isSome) →
      (SharePostHandler sm postID).2 = (SharePostHandler sm2 postID).2) := by
  refine ⟨?_, ?_, ?_, ?_, ?_⟩
  · intro h
    cases hp : sm.Posts postID with
    | none => exact absurd hp h
    | some post => simp [SharePostHandler, hp]
  · intro h
    simp [SharePostHandler, h, RespondWithError, StatusNotFound, Response.status]
  · cases hp : sm.Posts postID <;> simp [SharePostHandler, hp]
  · intro h
    cases hp : sm.Posts "p123" with
    | none => exact absurd hp h
    | some post =>
      simp only [SharePostHandler, hp]
      decide
  · intro sm2 h
    cases hp : sm.Posts postID <;> cases hp2 : sm2.Posts postID <;>
      simp [SharePostHandler, hp, hp2] at h ⊢

/-- Witness of `SharePostHandler_spec`: the stored post `p123` and the absent
identifier `p999`. -/
theorem SharePostHandler_spec_witness :
    SharePostHandler smHi "p123" = (smHi, Response.link "http://localhost:8000/post/p123") ∧
    SharePostHandler smHi "p999" = (smHi, Response.error 404 "Post not found") ∧
    (SharePostHandler smHi "p123").2 = (SharePostHandler smMax "p123").2 :=
  ⟨(SharePostHandler_spec smHi "p123").1 (by decide),
   ((SharePostHandler_spec smHi "p999").2.1 (by decide)).1,
   (SharePostHandler_spec smHi "p123").2.2.2.2 smMax (by decide)⟩

/-! ## Sequences of requests -/

theorem createdIDs_cons (r : Request) (resp : Response) (t : List (Request × Response)) :
    createdIDs ((r, resp) :: t) = createdIDs [(r, resp)] ++ createdIDs t := by
  cases r <;> cases resp <;> simp [createdIDs]

theorem serve_present (sm : SocialMedia) (r : Request) (id : String) :
    (serve sm r).1.Posts id ≠ none ↔
      sm.Posts id ≠ none ∨ id ∈ createdIDs [(r, (serve sm r).2)] := by
  cases r with
  | addPost body newID now =>
    cases body with
    | none => simp [serve, AddPostHandler, RespondWithError, createdIDs]
    | some b =>
      cases hv : validatePost b with
      | false => simp [serve, AddPostHandler, hv, RespondWithError, createdIDs]
      | true =>
        by_cases hid : id = newID
        · simp [serve, AddPostHandler, hv, createdIDs, SocialMedia.store, hid]
        · simp [serve, AddPostHandler, hv, createdIDs, SocialMedia.store, hid]
  | getPost k =>
    cases hk : sm.Posts k <;> simp [serve, GetPostHandler, hk, RespondWithError, createdIDs]
  | addComment k body newID now =>
    cases hk : sm.Posts k with
    | none => simp [serve, AddCommentHandler, hk, RespondWithError, createdIDs]
    | some post =>
      cases body with
      | none => simp [serve, AddCommentHandler, hk, RespondWithError, createdIDs]
      | some c =>
        cases hv : validateComment c with
        | false => simp [serve, AddCommentHandler, hk, hv, RespondWithError, createdIDs]
        | true =>
          by_cases hid : id = k
          · simp [serve, AddCommentHandler, hk, hv, createdIDs, SocialMedia.store, hid]
          · simp [serve, AddCommentHandler, hk, hv, createdIDs, SocialMedia.store, hid]
  | like k =>
    cases hk : sm.Posts k with
    | none => simp [serve, LikePostHandler, hk, RespondWithError, createdIDs]
    | some post =>
      by_cases hid : id = k
      · simp [serve, LikePostHandler, hk, createdIDs, SocialMedia.store, hid]
      · simp [serve, LikePostHandler, hk, createdIDs, SocialMedia.store, hid]
  | dislike k =>
    cases hk : sm.Posts k with
    | none => simp [serve, DislikePostHandler, hk, RespondWithError, createdIDs]
    | some post =>
      by_cases hid : id = k
      · simp [serve, DislikePostHandler, hk, createdIDs, SocialMedia.store, hid]
      · simp [serve, DislikePostHandler, hk, createdIDs, SocialMedia.store, hid]
  | share k =>
    cases hk : sm.Posts k <;> simp [serve, SharePostHandler, hk, RespondWithError, createdIDs]

theorem run_present (reqs : List Request) :
    ∀ (sm : SocialMedia) (id : String),
      (run sm reqs).1.Posts id ≠ none ↔
        sm.Posts id ≠ none ∨ id ∈ createdIDs (run sm reqs).2 := by
  induction reqs with
  | nil => intro sm id; simp [run, createdIDs]
  | cons r rs ih =>
    intro sm id
    have h1 := serve_present sm r id
    have h2 := ih (serve sm r).1 id
    simp only [run]
    rw [createdIDs_cons, List.mem_append, h2, h1]
    tauto

/-- C7: in the store reached from the empty store by any sequence of requests, an
identifier is present exactly when a successful create call of the sequence
returned it; `GetPostHandler` answers not-found on an identifier that no create
call returned and answers with the stored post on one that a create call
returned; and such an identifier stays present after any further requests. -/
theorem created_ids_are_the_stored_ids (reqs : List Request) (id : String) :
    ((run NewSocialMedia reqs).1.Posts id ≠ none ↔
      id ∈ createdIDs (run NewSocialMedia reqs).2) ∧
    (id ∉ createdIDs (run NewSocialMedia reqs).2 →
      GetPostHandler (run NewSocialMedia reqs).1 id
        = ((run NewSocialMedia reqs).1, Response.error 404 "Post not found")) ∧
    (id ∈ createdIDs (run NewSocialMedia reqs).2 →
      ∃ p, (run NewSocialMedia reqs).1.Posts id = some p ∧
        GetPostHandler (run NewSocialMedia reqs).1 id
          = ((run NewSocialMedia reqs).1, Response.post p)) ∧
    (id ∈ createdIDs (run NewSocialMedia reqs).2 →
      ∀ more, (run (run NewSocialMedia reqs).1 more).1.Posts id ≠ none) := by
  have key : (run NewSocialMedia reqs).1.Posts id ≠ none ↔
      id ∈ createdIDs (run NewSocialMedia reqs).2 := by
    rw [run_present reqs NewSocialMedia id]
    simp [NewSocialMedia]
  refine ⟨key, ?_, ?_, ?_⟩
  · intro h
    have hn : (run NewSocialMedia reqs).1.Posts id = none := by
      by_contra hc
      exact h (key.1 hc)
    simp [GetPostHandler, hn, RespondWithError, StatusNotFound]
  · intro h
    have hs := key.2 h
    cases hp : (run NewSocialMedia reqs).1.Posts id with
    | none => exact absurd hp hs
    | some p => exact ⟨p, rfl, by simp [GetPostHandler, hp]⟩
  · intro h more
    rw [run_present more (run NewSocialMedia reqs).1 id]
    exact Or.inl (key.2 h)

/-- Witness of `created_ids_are_the_stored_ids`: a create, a like of the created
post and a create with an empty content; `p123` was returned, `p124` was not. -/
theorem created_ids_are_the_stored_ids_witness :
    createdIDs (run NewSocialMedia [Request.addPost (some bodyHi) "p123" 1,
      Request.like "p123", Request.addPost (some bodyEmpty) "p124" 2]).2 = ["p123"] ∧
    (∃ p, GetPostHandler (run NewSocialMedia [Request.addPost (some bodyHi) "p123" 1,
        Request.like "p123", Request.addPost (some bodyEmpty) "p124" 2]).1 "p123"
      = ((run NewSocialMedia [Request.addPost (some bodyHi) "p123" 1,
        Request.like "p123", Request.addPost (some bodyEmpty) "p124" 2]).1, Response.post p)) ∧
    GetPostHandler (run NewSocialMedia [Request.addPost (some bodyHi) "p123" 1,
        Request.like "p123", Request.addPost (some bodyEmpty) "p124" 2]).1 "p124"
      = ((run NewSocialMedia [Request.addPost (some bodyHi) "p123" 1,
        Request.like "p123", Request.addPost (some bodyEmpty) "p124" 2]).1,
          Response.error 404 "Post not found") := by
  refine ⟨by decide, ?_, ?_⟩
  · obtain ⟨p, -, hp⟩ := (created_ids_are_the_stored_ids [Request.addPost (some bodyHi) "p123" 1,
      Request.like "p123", Request.addPost (some bodyEmpty) "p124" 2] "p123").2.2.1 (by decide)
    exact ⟨p, hp⟩
  · exact (created_ids_are_the_stored_ids [Request.addPost (some bodyHi) "p123" 1,
      Request.like "p123", Request.addPost (some bodyEmpty) "p124" 2] "p124").2.1 (by decide)

/-! ## The counters along a sequence of requests -/

theorem Post.CountersWithin.pred {n : Nat} {p : Post} (h : p.CountersWithin (n + 1)) :
    p.CountersWithin n := by
  unfold Post.CountersWithin at *
  push_cast at h
  omega

theorem serve_countersWithin (sm : SocialMedia) (r : Request) (n : Nat)
    (hsm : ∀ id p, sm.Posts id = some p → p.CountersWithin (n + 1))
    (hbody : ∀ body newID now, r = Request.addPost (some body) newID now →
      validatePost body = true → body.CountersWithin (n + 1)) :
    ∀ id p, (serve sm r).1.Posts id = some p → p.CountersWithin n := by
  intro id p hp
  cases r with
  | addPost body newID now =>
    cases body with
    | none =>
      simp only [serve, AddPostHandler] at hp
      exact (hsm id p hp).pred
    | some b =>
      cases hv : validatePost b with
      | false =>
        simp [serve, AddPostHandler, hv] at hp
        exact (hsm id p hp).pred
      | true =>
        by_cases hid : id = newID
        · simp [serve, AddPostHandler, hv, SocialMedia.store, hid] at hp
          have hb := (hbody b newID now rfl hv).pred
          subst hp
          exact hb
        · simp [serve, AddPostHandler, hv, SocialMedia.store, hid] at hp
          exact (hsm id p hp).pred
  | getPost k =>
    cases hk : sm.Posts k <;> simp [serve, GetPostHandler, hk] at hp <;>
      exact (hsm id p hp).pred
  | addComment k body newID now =>
    cases hk : sm.Posts k with
    | none =>
      simp [serve, AddCommentHandler, hk] at hp
      exact (hsm id p hp).pred
    | some post =>
      cases body with
      | none =>
        simp [serve, AddCommentHandler, hk] at hp
        exact (hsm id p hp).pred
      | some c =>
        cases hv : validateComment c with
        | false =>
          simp [serve, AddCommentHandler, hk, hv] at hp
          exact (hsm id p hp).pred
        | true =>
          by_cases hid : id = k
          · simp [serve, AddCommentHandler, hk, hv, SocialMedia.store, hid] at hp
            have hb := (hsm k post hk).pred
            subst hp
            exact hb
          · simp [serve, AddCommentHandler, hk, hv, SocialMedia.store, hid] at hp
            exact (hsm id p hp).pred
  | like k =>
    cases hk : sm.Posts k with
    | none =>
      simp [serve, LikePostHandler, hk] at hp
      exact (hsm id p hp).pred
    | some post =>
      by_cases hid : id = k
      · simp [serve, LikePostHandler, hk, SocialMedia.store, hid] at hp
        have hb := hsm k post hk
        unfold Post.CountersWithin at hb
        push_cast at hb
        have hlt : post.Likes.val < maxInt := by omega
        have hinc := GoInt.incr_val_of_lt post.Likes hlt
        subst hp
        unfold Post.CountersWithin
        simp only [hinc]
        omega
      · simp [serve, LikePostHandler, hk, SocialMedia.store, hid] at hp
        exact (hsm id p hp).pred
  | dislike k =>
    cases hk : sm.Posts k with
    | none =>
      simp [serve, DislikePostHandler, hk] at hp
      exact (hsm id p hp).pred
    | some post =>
      by_cases hid : id = k
      · simp [serve, DislikePostHandler, hk, SocialMedia.store, hid] at hp
        have hb := hsm k post hk
        unfold Post.CountersWithin at hb
        push_cast at hb
        have hlt : post.Dislikes.val < maxInt := by omega
        have hinc := GoInt.incr_val_of_lt post.Dislikes hlt
        subst hp
        unfold Post.CountersWithin
        simp only [hinc]
        omega
      · simp [serve, DislikePostHandler, hk, SocialMedia.store, hid] at hp
        exact (hsm id p hp).pred
  | share k =>
    cases hk : sm.Posts k <;> simp [serve, SharePostHandler, hk] at hp <;>
      exact (hsm id p hp).pred

theorem run_countersWithin (reqs : List Request) :
    ∀ (sm : SocialMedia),
      (∀ id p, sm.Posts id = some p → p.CountersWithin reqs.length) →
      (∀ body newID now, Request.addPost (some body) newID now ∈ reqs →
        validatePost body = true → body.CountersWithin reqs.length) →
      ∀ id p, (run sm reqs).1.Posts id = some p → p.CountersWithin 0 := by
  induction reqs with
  | nil =>
    intro sm hsm _ id p hp
    exact hsm id p hp
  | cons r rs ih =>
    intro sm hsm hbody id p hp
    simp only [run] at hp
    refine ih (serve sm r).1 ?_ ?_ id p hp
    · exact serve_countersWithin sm r rs.length hsm
        (fun body newID now e hv => hbody body newID now (by simp [e]) hv)
    · intro body newID now hmem hv
      exact (hbody body newID now (List.mem_cons_of_mem _ hmem) hv).pred

/-- C8, as stated, fails: the single create request `{"content":"hi","likes":-1}`
on the empty store leaves a stored post whose like count is -1. -/
theorem negative_likes_reachable :
    (run NewSocialMedia [Request.addPost (some bodyLikesNeg) "p123" 1]).1.Posts "p123"
      = some ⟨"p123", "hi", [], GoInt.ofInt (-1), GoInt.ofInt 0, 1⟩ ∧
    (GoInt.ofInt (-1)).val = -1 ∧
    ¬ ∀ id p, (run NewSocialMedia [Request.addPost (some bodyLikesNeg) "p123" 1]).1.Posts id
        = some p → 0 ≤ p.Likes.val ∧ 0 ≤ p.Dislikes.val := by
  refine ⟨by decide, by decide, ?_⟩
  intro h
  have h1 := (h "p123" ⟨"p123", "hi", [], GoInt.ofInt (-1), GoInt.ofInt 0, 1⟩ (by decide)).1
  revert h1
  decide

/-- C8, amended: in every store reached from the empty store by a sequence of
create, get, add-comment, like, dislike and share requests in which every create
body that passes validation carries a like count and a dislike count that are
at least 0 and that, added to the number of requests of the sequence, do not
exceed 2^63 - 1, every stored post has a like count >= 0 and a dislike count >= 0. -/
theorem counters_nonneg (reqs : List Request)
    (hbody : ∀ body newID now, Request.addPost (some body) newID now ∈ reqs →
      validatePost body = true →
      0 ≤ body.Likes.val ∧ body.Likes.val + reqs.length ≤ maxInt ∧
      0 ≤ body.Dislikes.val ∧ body.Dislikes.val + reqs.length ≤ maxInt) :
    ∀ id p, (run NewSocialMedia reqs).1.Posts id = some p →
      0 ≤ p.Likes.val ∧ 0 ≤ p.Dislikes.val := by
  intro id p hp
  have h := run_countersWithin reqs NewSocialMedia
    (by intro id p hp; simp [NewSocialMedia] at hp) hbody id p hp
  exact ⟨h.1, h.2.2.1⟩

/-- Witness of `counters_nonneg`: a create with body `{"content":"hi"}` followed by
a like and a dislike of the created post. -/
theorem counters_nonneg_witness :
    (run NewSocialMedia [Request.addPost (some bodyHi) "p123" 1, Request.like "p123",
        Request.dislike "p123"]).1.Posts "p123"
      = some ⟨"p123", "hi", [], GoInt.ofInt 1, GoInt.ofInt 1, 1⟩ ∧
    ∀ id p, (run NewSocialMedia [Request.addPost (some bodyHi) "p123" 1, Request.like "p123",
        Request.dislike "p123"]).1.Posts id = some p → 0 ≤ p.Likes.val ∧ 0 ≤ p.Dislikes.val := by
  refine ⟨by decide, counters_nonneg _ ?_⟩
  intro body newID now hmem _
  simp at hmem
  obtain ⟨hb, -, -⟩ := hmem
  subst hb
  decide

/-- C9, as stated, fails: in the store reached by the create request
`{"content":"hi","likes":9223372036854775807}` the post `p123` has like count
2^63 - 1; after a like request it is still present with like count -2^63, which is
smaller. -/
theorem like_count_decreases_at_maxInt :
    smMax.Posts "p123" = some ⟨"p123", "hi", [], GoInt.ofInt 9223372036854775807, GoInt.ofInt 0, 1⟩ ∧
    (serve smMax (Request.like "p123")).1.Posts "p123"
      = some ⟨"p123", "hi", [], GoInt.ofInt (-9223372036854775808), GoInt.ofInt 0, 1⟩ ∧
    (GoInt.ofInt (-9223372036854775808)).val < (GoInt.ofInt 9223372036854775807).val ∧
    ¬ ∀ p, smMax.Posts "p123" = some p →
      ∃ p', (serve smMax (Request.like "p123")).1.Posts "p123" = some p' ∧
        p.Likes.val ≤ p'.Likes.val ∧ p.Dislikes.val ≤ p'.Dislikes.val := by
  refine ⟨by decide, by decide, by decide, ?_⟩
  intro h
  obtain ⟨p', hp', hl, -⟩ :=
    h ⟨"p123", "hi", [], GoInt.ofInt 9223372036854775807, GoInt.ofInt 0, 1⟩ (by decide)
  have e : (serve smMax (Request.like "p123")).1.Posts "p123"
      = some ⟨"p123", "hi", [], GoInt.ofInt (-9223372036854775808), GoInt.ofInt 0, 1⟩ := by
    decide
  rw [e] at hp'
  injection hp' with hp'
  subst hp'
  revert hl
  decide

/-- C9, amended: for every store, every handler call (a create with a freshly
generated identifier, a get, an add-comment, a like, a dislike, a share) and every
post present before the call, the post is still present afterwards and its like
count and dislike count are each greater than or equal to their values before,
unless the call is a like of that post while its like count is 2^63 - 1 or a
dislike of that post while its dislike count is 2^63 - 1. -/
theorem counters_monotone (sm : SocialMedia) (r : Request) (id : String) (p : Post)
    (hp : sm.Posts id = some p)
    (hfresh : ∀ body newID now, r = Request.addPost body newID now → sm.Posts newID = none)
    (hlike : r = Request.like id → p.Likes.val < maxInt)
    (hdislike : r = Request.dislike id → p.Dislikes.val < maxInt) :
    ∃ p', (serve sm r).1.Posts id = some p' ∧
      p.Likes.val ≤ p'.Likes.val ∧ p.Dislikes.val ≤ p'.Dislikes.val := by
  cases r with
  | addPost body newID now =>
    have hne : id ≠ newID := by
      intro e
      have := hfresh body newID now rfl
      rw [← e, hp] at this
      cases this
    refine ⟨p, ?_, le_refl _, le_refl _⟩
    cases body with
    | none => simpa [serve, AddPostHandler] using hp
    | some b =>
      cases hv : validatePost b <;>
        simp [serve, AddPostHandler, hv, SocialMedia.store, hne, hp]
  | getPost k =>
    refine ⟨p, ?_, le_refl _, le_refl _⟩
    cases hk : sm.Posts k <;> simp [serve, GetPostHandler, hk, hp]
  | addComment k body newID now =>
    cases hk : sm.Posts k with
    | none => exact ⟨p, by simp [serve, AddCommentHandler, hk, hp], le_refl _, le_refl _⟩
    | some post =>
      cases body with
      | none => exact ⟨p, by simp [serve, AddCommentHandler, hk, hp], le_refl _, le_refl _⟩
      | some c =>
        cases hv : validateComment c with
        | false =>
          exact ⟨p, by simp [serve, AddCommentHandler, hk, hv, hp], le_refl _, le_refl _⟩
        | true =>
          by_cases hid : id = k
          · subst hid
            rw [hp] at hk
            cases hk
            exact ⟨{ p with Comments := p.Comments ++ [{ c with ID := newID, CreatedAt := now }] },
              by simp [serve, AddCommentHandler, hp, hv, SocialMedia.store],
              le_refl _, le_refl _⟩
          · exact ⟨p, by simp [serve, AddCommentHandler, hk, hv, SocialMedia.store, hid, hp],
              le_refl _, le_refl _⟩
  | like k =>
    cases hk : sm.Posts k with
    | none => exact ⟨p, by simp [serve, LikePostHandler, hk, hp], le_refl _, le_refl _⟩
    | some post =>
      by_cases hid : id = k
      · subst hid
        rw [hp] at hk
        cases hk
        have hinc := GoInt.incr_val_of_lt p.Likes (hlike rfl)
        refine ⟨{ p with Likes := p.Likes.incr },
          by simp [serve, LikePostHandler, hp, SocialMedia.store], ?_, le_refl _⟩
        simp only [hinc]
        omega
      · exact ⟨p, by simp [serve, LikePostHandler, hk, SocialMedia.store, hid, hp],
          le_refl _, le_refl _⟩
  | dislike k =>
    cases hk : sm.Posts k with
    | none => exact ⟨p, by simp [serve, DislikePostHandler, hk, hp], le_refl _, le_refl _⟩
    | some post =>
      by_cases hid : id = k
      · subst hid
        rw [hp] at hk
        cases hk
        have hinc := GoInt.incr_val_of_lt p.Dislikes (hdislike rfl)
        refine ⟨{ p with Dislikes := p.Dislikes.incr },
          by simp [serve, DislikePostHandler, hp, SocialMedia.store], le_refl _, ?_⟩
        simp only [hinc]
        omega
      · exact ⟨p, by simp [serve, DislikePostHandler, hk, SocialMedia.store, hid, hp],
          le_refl _, le_refl _⟩
  | share k =>
    refine ⟨p, ?_, le_refl _, le_refl _⟩
    cases hk : sm.Posts k <;> simp [serve, SharePostHandler, hk, hp]

/-- Witness of `counters_monotone`: a like of the post `p123`, whose like count is 0. -/
theorem counters_monotone_witness :
    smHi.Posts "p123" = some postHi ∧ postHi.Likes.val < maxInt ∧
    ∃ p', (serve smHi (Request.like "p123")).1.Posts "p123" = some p' ∧
      postHi.Likes.val ≤ p'.Likes.val ∧ postHi.Dislikes.val ≤ p'.Dislikes.val :=
  ⟨by decide, by decide,
    counters_monotone smHi (Request.like "p123") "p123" postHi (by decide)
      (fun _ _ _ h => by cases h) (fun _ => by decide) (fun h => by cases h)⟩

end Socialmedia
